import Mathlib

/-! # webstatus.dev: entity mapper for browser feature availabilities, and the GetFeature handler

A shallow embedding of

* `lib/gcpspanner/browser_availabilities.go`: the `browserFeatureAvailabilityMapper`
  (`Table`, `SelectOne`, `Merge`, `GetKey`) and `Client.InsertBrowserFeatureAvailability`;
* `backend/pkg/httpserver/get_feature.go`: `Server.GetFeature`, a cache-aside handler.

Go strings are Lean `String`s, a Go pointer that may be nil is an `Option`, a Go `error`
is an `Option GoError` (`none` is the nil error).  Calls to collaborators (the storer, the
response cache, the feature-id lookup, the entity writer) are taken as parameters and every
call is recorded in a trace, so that "is called exactly once" is a statement about the trace.
-/

namespace Webstatus

/-! ## Go errors -/

/-- A Go error value: a sentinel made by `errors.New` (identified by its variable), an error
wrapping another one (`fmt.Errorf` with `%w`), or two errors joined by `errors.Join`. -/
inductive GoError where
  | sentinel (name : String)
  | wrap (msg : String) (inner : GoError)
  | join (left right : GoError)
  deriving DecidableEq, Repr

/-- Go's `errors.Is`: `err` is `target`, or something in its unwrap tree is. -/
def errorsIs : GoError → GoError → Bool
  | .sentinel n, target => decide (GoError.sentinel n = target)
  | .wrap m inner, target => decide (GoError.wrap m inner = target) || errorsIs inner target
  | .join l r, target =>
      decide (GoError.join l r = target) || errorsIs l target || errorsIs r target

/-- Modelled from the spec: the sentinel `gcpspanner.ErrQueryReturnedNoResults`, the
distinguished not-found condition; its declaration is missing from the sources and only its
identity matters. -/
def ErrQueryReturnedNoResults : GoError := .sentinel "ErrQueryReturnedNoResults"

/-- Modelled from the spec: the sentinel `gcpspanner.ErrInternalQueryFailure`, the internal
query failure; its declaration is missing from the sources and only its identity matters. -/
def ErrInternalQueryFailure : GoError := .sentinel "ErrInternalQueryFailure"

/-! ## `lib/gcpspanner/browser_availabilities.go` -/

/-- The constant `browserFeatureAvailabilitiesTable`. -/
def browserFeatureAvailabilitiesTable : String := "BrowserFeatureAvailabilities"

/-- The struct `browserFeatureAvailabilityKey`. -/
structure browserFeatureAvailabilityKey where
  WebFeatureID : String
  BrowserName : String
  deriving DecidableEq, Repr

/-- The struct `BrowserFeatureAvailability`: availability information for a particular
feature in a browser. -/
structure BrowserFeatureAvailability where
  BrowserName : String
  BrowserVersion : String
  deriving DecidableEq, Repr

/-- The struct `spannerBrowserFeatureAvailability`: `WebFeatureID` plus the embedded
`BrowserFeatureAvailability`. -/
structure spannerBrowserFeatureAvailability extends BrowserFeatureAvailability where
  WebFeatureID : String
  deriving DecidableEq, Repr

/-- The Go zero value of `spannerBrowserFeatureAvailability`: every string field empty. -/
def spannerBrowserFeatureAvailability.zero : spannerBrowserFeatureAvailability :=
  { WebFeatureID := "", BrowserName := "", BrowserVersion := "" }

/-- A `spanner.Statement`: the SQL text and the bound parameters.  The Go parameter map is
kept as an association list in the order of the map literal; it is read through
`Statement.param` only. -/
structure Statement where
  SQL : String
  Params : List (String × String)
  deriving DecidableEq, Repr

/-- The value bound to the parameter `name`, if any. -/
def Statement.param (stmt : Statement) (name : String) : Option String :=
  (stmt.Params.find? (fun p => p.1 == name)).map Prod.snd

namespace browserFeatureAvailabilityMapper

/-- The method `Table`. -/
def Table : String := browserFeatureAvailabilitiesTable

/-- The SQL text built by `fmt.Sprintf` in `SelectOne`, with `%s` replaced by `table`. -/
def selectOneSQL (table : String) : String :=
  "\n\tSELECT\n\t\tWebFeatureID, BrowserName, BrowserVersion\n\tFROM " ++ table ++
  "\n\tWHERE WebFeatureID = @webFeatureID AND BrowserName = @browserName\n\tLIMIT 1"

/-- The method `SelectOne`. -/
def SelectOne (key : browserFeatureAvailabilityKey) : Statement :=
  { SQL := selectOneSQL Table
    Params := [("webFeatureID", key.WebFeatureID), ("browserName", key.BrowserName)] }

/-- The method `Merge`: the incoming value is ignored and the existing one is kept as-is. -/
def Merge (_incoming existing : spannerBrowserFeatureAvailability) :
    spannerBrowserFeatureAvailability :=
  existing

/-- The method `GetKey`. -/
def GetKey (row : spannerBrowserFeatureAvailability) : browserFeatureAvailabilityKey :=
  { WebFeatureID := row.WebFeatureID, BrowserName := row.BrowserName }

/-- The `WHERE` clause of the statement built by `SelectOne`, read on a row:
`WebFeatureID = @webFeatureID AND BrowserName = @browserName`. -/
def whereHolds (stmt : Statement) (row : spannerBrowserFeatureAvailability) : Bool :=
  stmt.param "webFeatureID" == some row.WebFeatureID &&
  stmt.param "browserName" == some row.BrowserName

end browserFeatureAvailabilityMapper

/-- The result pair `(id *string, err error)` of `Client.GetIDFromFeatureKey`. -/
structure FeatureIDResult where
  id : Option String
  err : Option GoError
  deriving DecidableEq, Repr

/-- The collaborators of `InsertBrowserFeatureAvailability` on the client: the feature-id
lookup, called with the filter `NewFeatureKeyFilter(webFeatureID)` (identified here with the
feature key it is built from), and the entity writer's `upsert` for this mapper. -/
structure Client where
  GetIDFromFeatureKey : String → FeatureIDResult
  upsert : spannerBrowserFeatureAvailability → Option GoError

/-- A call made by `InsertBrowserFeatureAvailability` on a collaborator. -/
inductive ClientCall where
  | getIDFromFeatureKey (featureKey : String)
  | upsert (row : spannerBrowserFeatureAvailability)
  deriving DecidableEq, Repr

/-- The method `Client.InsertBrowserFeatureAvailability`: the returned error and the calls
made, in order. -/
def InsertBrowserFeatureAvailability (c : Client) (webFeatureID : String)
    (input : BrowserFeatureAvailability) : Option GoError × List ClientCall :=
  let res := c.GetIDFromFeatureKey webFeatureID
  match res.err with
  | some err => (some err, [.getIDFromFeatureKey webFeatureID])
  | none =>
    match res.id with
    | none => (some ErrInternalQueryFailure, [.getIDFromFeatureKey webFeatureID])
    | some id =>
      let featureAvailability : spannerBrowserFeatureAvailability :=
        { WebFeatureID := id, toBrowserFeatureAvailability := input }
      (c.upsert featureAvailability,
        [.getIDFromFeatureKey webFeatureID, .upsert featureAvailability])

/-- The rows written by the calls in a trace. -/
def upsertedRows : List ClientCall → List spannerBrowserFeatureAvailability
  | [] => []
  | .upsert row :: rest => row :: upsertedRows rest
  | .getIDFromFeatureKey _ :: rest => upsertedRows rest

/-! ## `backend/pkg/httpserver/get_feature.go` -/

/-- The string type `backend.WPTMetricView`. -/
abbrev WPTMetricView := String

/-- The string type `backend.BrowserPathParam`. -/
abbrev BrowserPathParam := String

/-- The struct `backend.GetFeatureParams` (generated code, missing from the sources), with the
one field the handler reads. -/
structure GetFeatureParams where
  WptMetricView : Option WPTMetricView
  deriving DecidableEq, Repr

/-- The struct `backend.GetFeatureRequestObject` (generated code, missing from the sources),
with the fields the handler reads. -/
structure GetFeatureRequestObject where
  FeatureId : String
  Params : GetFeatureParams
  deriving DecidableEq, Repr

/-- The responses of `GetFeature` (`backend.GetFeatureResponseObject`), over the type
`Feature` of `backend.Feature`: `GetFeature200JSONResponse` is a `backend.Feature`, the two
others are a `backend.BasicErrorModel`. -/
inductive GetFeatureResponseObject (Feature : Type) where
  | GetFeature200JSONResponse (feature : Feature)
  | GetFeature404JSONResponse (Code : Nat) (Message : String)
  | GetFeature500JSONResponse (Code : Nat) (Message : String)
  deriving DecidableEq, Repr

/-- The result pair `(*backend.Feature, error)` of the storer's `GetFeature`. -/
structure StorerResult (Feature : Type) where
  feature : Option Feature
  err : Option GoError
  deriving DecidableEq, Repr

/-- What `Lookup` leaves behind: the flag it returns and the content of the target
`cachedResponse` after the call. -/
structure LookupResult (Feature : Type) where
  found : Bool
  cachedResponse : Feature
  deriving DecidableEq, Repr

/-- The collaborators of `Server.GetFeature`: the response cache's `Lookup`, the storer's
`GetFeature`, and the helpers `getWPTMetricViewOrDefault` and `defaultBrowsers`. -/
structure Server (Feature : Type) where
  getFeatureCacheLookup : GetFeatureRequestObject → LookupResult Feature
  wptMetricsStorerGetFeature :
    String → WPTMetricView → List BrowserPathParam → StorerResult Feature
  getWPTMetricViewOrDefault : Option WPTMetricView → WPTMetricView
  defaultBrowsers : List BrowserPathParam

/-- A call made by `Server.GetFeature` on a collaborator. -/
inductive ServerCall (Feature : Type) where
  | cacheLookup (request : GetFeatureRequestObject)
  | storerGetFeature (featureID : String) (view : WPTMetricView)
      (browsers : List BrowserPathParam)
  | slogError (msg : String) (err : GoError)
  | attemptCache (request : GetFeatureRequestObject) (resp : Feature)
  deriving DecidableEq, Repr

/-- How a run of `Server.GetFeature` ends: it returns a response and an error, or the
dereference `*feature` of a nil pointer panics. -/
inductive Outcome (Feature : Type) where
  | returned (resp : GetFeatureResponseObject Feature) (err : Option GoError)
  | nilDereference
  deriving DecidableEq, Repr

/-- A run of `Server.GetFeature`: how it ends and the calls made, in order. -/
structure Run (Feature : Type) where
  outcome : Outcome Feature
  calls : List (ServerCall Feature)
  deriving DecidableEq, Repr

/-- The constant `http.StatusNotFound`. -/
def StatusNotFound : Nat := 404

/-- The method `Server.GetFeature`. -/
def GetFeature {Feature : Type} (s : Server Feature) (request : GetFeatureRequestObject) :
    Run Feature :=
  let looked := s.getFeatureCacheLookup request
  if looked.found then
    { outcome := .returned (.GetFeature200JSONResponse looked.cachedResponse) none
      calls := [.cacheLookup request] }
  else
    let view := s.getWPTMetricViewOrDefault request.Params.WptMetricView
    let res := s.wptMetricsStorerGetFeature request.FeatureId view s.defaultBrowsers
    let called : List (ServerCall Feature) :=
      [.cacheLookup request, .storerGetFeature request.FeatureId view s.defaultBrowsers]
    match res.err with
    | some err =>
      if errorsIs err ErrQueryReturnedNoResults then
        { outcome := .returned
            (.GetFeature404JSONResponse StatusNotFound
              ("feature id " ++ request.FeatureId ++ " is not found")) none
          calls := called }
      else
        { outcome := .returned (.GetFeature500JSONResponse 500 "unable to get feature") none
          calls := called ++ [.slogError "unable to get feature" err] }
    | none =>
      match res.feature with
      | none => { outcome := .nilDereference, calls := called }
      | some feature =>
        { outcome := .returned (.GetFeature200JSONResponse feature) none
          calls := called ++ [.attemptCache request feature] }

/-- The calls to the storer in a trace. -/
def storerCalls {Feature : Type} :
    List (ServerCall Feature) → List (String × WPTMetricView × List BrowserPathParam)
  | [] => []
  | .storerGetFeature id view browsers :: rest => (id, view, browsers) :: storerCalls rest
  | .cacheLookup _ :: rest => storerCalls rest
  | .slogError _ _ :: rest => storerCalls rest
  | .attemptCache _ _ :: rest => storerCalls rest

/-- The `AttemptCache` calls (cache puts) in a trace. -/
def attemptCacheCalls {Feature : Type} :
    List (ServerCall Feature) → List (GetFeatureRequestObject × Feature)
  | [] => []
  | .attemptCache request resp :: rest => (request, resp) :: attemptCacheCalls rest
  | .cacheLookup _ :: rest => attemptCacheCalls rest
  | .storerGetFeature _ _ _ :: rest => attemptCacheCalls rest
  | .slogError _ _ :: rest => attemptCacheCalls rest

/-- The `Lookup` calls in a trace. -/
def cacheLookupCalls {Feature : Type} :
    List (ServerCall Feature) → List GetFeatureRequestObject
  | [] => []
  | .cacheLookup request :: rest => request :: cacheLookupCalls rest
  | .attemptCache _ _ :: rest => cacheLookupCalls rest
  | .storerGetFeature _ _ _ :: rest => cacheLookupCalls rest
  | .slogError _ _ :: rest => cacheLookupCalls rest

/-- The Go error a run returns, when it returns. -/
def Outcome.returnedError {Feature : Type} : Outcome Feature → Option (Option GoError)
  | .returned _ err => some err
  | .nilDereference => none


/-! ## Response cache keying -/

/-- An `openapi_types.Date`: a calendar day. -/
structure Date where
  year : Nat
  month : Nat
  day : Nat
  deriving DecidableEq, Repr

/-- The decimal digit character of `n % 10`. -/
def digitChar (n : Nat) : Char := Char.ofNat (48 + n % 10)

/-- The `width` low-order decimal digits of `n`, the most significant first. -/
def decimalDigits : Nat → Nat → List Char
  | 0, _ => []
  | width + 1, n => decimalDigits width (n / 10) ++ [digitChar n]

/-- The decimal digits of `n`, padded with zeros on the left to at least `width` characters. -/
def zeroPad (width n : Nat) : String :=
  if n < 10 ^ width then String.mk (decimalDigits width n) else toString n

/-- A calendar day: a year of at most four digits, a month and a day of the month. -/
def Date.IsValid (d : Date) : Prop :=
  d.year ≤ 9999 ∧ 1 ≤ d.month ∧ d.month ≤ 12 ∧ 1 ≤ d.day ∧ d.day ≤ 31

instance (d : Date) : Decidable d.IsValid := by
  unfold Date.IsValid
  infer_instance

/-- Modelled from the spec: the JSON text of a date, `"YYYY-MM-DD"` without the quotes, as the
keys in `list_chromium_usage_test.go` show it (`2000-01-01`). -/
def Date.format (d : Date) : String :=
  zeroPad 4 d.year ++ "-" ++ zeroPad 2 d.month ++ "-" ++ zeroPad 2 d.day

/-- The lowercase hexadecimal digit of `n`, for `n < 16`. -/
def hexDigit (n : Nat) : Char :=
  if n < 10 then Char.ofNat (48 + n) else Char.ofNat (87 + n)

/-- Modelled from the spec: the characters written as `\uXXXX` in a JSON string literal: the
control characters below U+0020, and `<`, `>`, `&`, U+2028 and U+2029, which an HTML-safe
encoder escapes as well. -/
def needsUnicodeEscape (c : Char) : Bool :=
  c.toNat < 32 || c.toNat == 60 || c.toNat == 62 || c.toNat == 38 ||
    c.toNat == 8232 || c.toNat == 8233

/-- Modelled from the spec: one character inside a JSON string literal.  The quote and the
backslash take a backslash; newline, carriage return and tab have their short form; the
characters of `needsUnicodeEscape` are written `\uXXXX` with four hexadecimal digits; every
other character stands for itself. -/
def jsonEscape (c : Char) : List Char :=
  if c.toNat = 34 then [Char.ofNat 92, Char.ofNat 34]
  else if c.toNat = 92 then [Char.ofNat 92, Char.ofNat 92]
  else if c.toNat = 10 then [Char.ofNat 92, 'n']
  else if c.toNat = 13 then [Char.ofNat 92, 'r']
  else if c.toNat = 9 then [Char.ofNat 92, 't']
  else if needsUnicodeEscape c then
    [Char.ofNat 92, 'u', hexDigit (c.toNat / 4096 % 16), hexDigit (c.toNat / 256 % 16),
      hexDigit (c.toNat / 16 % 16), hexDigit (c.toNat % 16)]
  else [c]

/-- Modelled from the spec: the characters of a string, each one escaped by `jsonEscape`. -/
def jsonEscapeAll : List Char → List Char
  | [] => []
  | c :: rest => jsonEscape c ++ jsonEscapeAll rest

/-- Modelled from the spec: a JSON string literal, the escaped characters between two
quotes; the serializer is missing from the sources. -/
def jsonString (s : String) : String :=
  String.mk (Char.ofNat 34 :: (jsonEscapeAll s.data ++ [Char.ofNat 34]))

/-- Modelled from the spec: the parameters of a `listChromeDailyUsageStats` request whose JSON
names the keys in `list_chromium_usage_test.go` show.  The generated request types are
missing from the sources.  `PageToken` is optional (a nil pointer when absent). -/
structure ListChromeDailyUsageStatsParams where
  StartAt : Date
  EndAt : Date
  PageToken : Option String
  deriving DecidableEq, Repr

/-- Modelled from the spec: the request object of `listChromeDailyUsageStats`; the generated
type is missing from the sources. -/
structure ListChromeDailyUsageStatsRequestObject where
  FeatureId : String
  Params : ListChromeDailyUsageStatsParams
  deriving DecidableEq, Repr

/-- Modelled from the spec: a member of a JSON object for an optional parameter, after at
least one other member: nothing when the parameter is absent (a nil pointer), a comma and the
member when it is present, even with an empty value. -/
def optionalMember (name : String) : Option String → String
  | none => ""
  | some value => ",\"" ++ name ++ "\":" ++ jsonString value

/-- Modelled from the spec: the canonical JSON serialization of the request parameters, the
members in declaration order, an absent optional parameter omitted; the serializer is missing
from the sources. -/
def ListChromeDailyUsageStatsParams.toJSON (p : ListChromeDailyUsageStatsParams) : String :=
  "\x7b\"startAt\":" ++ jsonString p.StartAt.format ++
  ",\"endAt\":" ++ jsonString p.EndAt.format ++
  optionalMember "page_token" p.PageToken ++
  "\x7d"

/-- Modelled from the spec: the canonical JSON serialization of the request; the serializer is
missing from the sources. -/
def ListChromeDailyUsageStatsRequestObject.toJSON
    (r : ListChromeDailyUsageStatsRequestObject) : String :=
  "\x7b\"feature_id\":" ++ jsonString r.FeatureId ++ ",\"Params\":" ++ r.Params.toJSON ++ "\x7d"

/-- Modelled from the spec: the cache key derivation, missing from the sources: "a
deterministic string composed of the operation name and a canonical serialization of the
request's significant parameters", joined by a hyphen as in the keys the test expects. -/
def cacheKey (operation requestJSON : String) : String :=
  operation ++ "-" ++ requestJSON

/-- Modelled from the spec: what the byte cache answers to a get
(`get(key) -> bytes | not-found | error`). -/
inductive CacheGetResult where
  | bytes (payload : String)
  | notFound
  | error (err : GoError)
  deriving DecidableEq, Repr

/-- A call on the byte cache backend. -/
inductive CacheBackendCall where
  | get (key : String)
  | put (key : String) (payload : String)
  deriving DecidableEq, Repr

/-- Modelled from the spec: the response cache of one operation, missing from the sources: the
operation name, the request serializer, the value codec and the backend's get. -/
structure OperationResponseCache (Request Value : Type) where
  operation : String
  requestJSON : Request → String
  encode : Value → Option String
  decode : String → Option Value
  backendGet : String → CacheGetResult

/-- Modelled from the spec: `Lookup` (section 4.3), missing from the sources.  The key is
derived from the request and the byte cache is queried; a well-formed hit gives the decoded
value, anything else (not found, a backend error, a malformed payload) gives nothing.  The
result is the value on a hit and the calls made on the backend. -/
def OperationResponseCache.Lookup {Request Value : Type}
    (c : OperationResponseCache Request Value) (request : Request) :
    Option Value × List CacheBackendCall :=
  let key := cacheKey c.operation (c.requestJSON request)
  match c.backendGet key with
  | .bytes payload => (c.decode payload, [.get key])
  | .notFound => (none, [.get key])
  | .error _ => (none, [.get key])

/-- Modelled from the spec: `AttemptCache` (section 4.3), missing from the sources.  The value
is serialized, the same key is derived and a best-effort put is made; when the value does not
serialize nothing is stored.  The result is the calls made on the backend. -/
def OperationResponseCache.AttemptCache {Request Value : Type}
    (c : OperationResponseCache Request Value) (request : Request) (value : Value) :
    List CacheBackendCall :=
  match c.encode value with
  | none => []
  | some payload => [.put (cacheKey c.operation (c.requestJSON request)) payload]


/-! ## Sample collaborators -/

/-- A server over string features whose cache answers every lookup with `looked` and whose
storer answers every call with `stored`; the default metric view is `subtest_counts` and the
default browsers are chrome and firefox. -/
def sampleServer (looked : LookupResult String) (stored : StorerResult String) :
    Server String :=
  { getFeatureCacheLookup := fun _ => looked
    wptMetricsStorerGetFeature := fun _ _ _ => stored
    getWPTMetricViewOrDefault := fun view => view.getD "subtest_counts"
    defaultBrowsers := ["chrome", "firefox"] }

/-- A request for the feature `feature1` without a metric view. -/
def sampleRequest : GetFeatureRequestObject :=
  { FeatureId := "feature1", Params := { WptMetricView := none } }

/-- The request of the test `TestListChromeDailyUsageStats`: feature `feature1`, from
2000-01-01 to 2000-01-10, no other parameter. -/
def sampleUsageRequest : ListChromeDailyUsageStatsRequestObject :=
  { FeatureId := "feature1"
    Params := { StartAt := { year := 2000, month := 1, day := 1 }
                EndAt := { year := 2000, month := 1, day := 10 }
                PageToken := none } }

/-- A response cache for `listChromeDailyUsageStats` over an empty backend, whose values are
their own payload. -/
def sampleUsageCache : OperationResponseCache ListChromeDailyUsageStatsRequestObject String :=
  { operation := "listChromeDailyUsageStats"
    requestJSON := ListChromeDailyUsageStatsRequestObject.toJSON
    encode := fun value => some value
    decode := fun payload => some payload
    backendGet := fun _ => .notFound }

/-! ## Theorems: the mapper -/

open browserFeatureAvailabilityMapper

/-- The `WHERE` clause of `SelectOne key` holds on a row exactly when the row carries the
two key fields. -/
theorem whereHolds_SelectOne_iff (key : browserFeatureAvailabilityKey)
    (row : spannerBrowserFeatureAvailability) :
    whereHolds (SelectOne key) row = true ↔
      row.WebFeatureID = key.WebFeatureID ∧ row.BrowserName = key.BrowserName := by
  have h1 : (SelectOne key).param "webFeatureID" = some key.WebFeatureID := rfl
  have h2 : (SelectOne key).param "browserName" = some key.BrowserName := rfl
  unfold whereHolds
  rw [h1, h2, Bool.and_eq_true, beq_iff_eq, beq_iff_eq, Option.some.injEq, Option.some.injEq]
  exact ⟨fun h => ⟨h.1.symm, h.2.symm⟩, fun h => ⟨h.1.symm, h.2.symm⟩⟩

/-- The `WHERE` clause of `SelectOne key` holds on a row exactly when `GetKey` of the row is
`key`. -/
theorem whereHolds_SelectOne_iff_GetKey (key : browserFeatureAvailabilityKey)
    (row : spannerBrowserFeatureAvailability) :
    whereHolds (SelectOne key) row = true ↔ GetKey row = key := by
  rw [whereHolds_SelectOne_iff]
  cases key
  simp [GetKey]

/-- C1, as stated, fails: with incoming `{f1, chrome, "120"}` and the zero value as existing
row, `GetKey (Merge incoming existing)` is the empty key, not the key of the incoming row. -/
theorem C1_counterexample :
    GetKey (Merge { WebFeatureID := "f1", BrowserName := "chrome", BrowserVersion := "120" }
        spannerBrowserFeatureAvailability.zero)
      ≠ GetKey { WebFeatureID := "f1", BrowserName := "chrome", BrowserVersion := "120" } := by
  decide

/-- C1, amended: `GetKey (Merge incoming existing)` is the key of the existing row, and it is
the key of the incoming row exactly when the existing row satisfies the `WHERE` clause of
`SelectOne (GetKey incoming)`, as every row fetched by the incoming key does. -/
theorem GetKey_Merge (incoming existing : spannerBrowserFeatureAvailability) :
    GetKey (Merge incoming existing) = GetKey existing ∧
    (GetKey (Merge incoming existing) = GetKey incoming ↔
      whereHolds (SelectOne (GetKey incoming)) existing = true) := by
  refine ⟨rfl, ?_⟩
  rw [whereHolds_SelectOne_iff_GetKey]
  rfl

/-- Witness of C1 amended: the existing row `{f1, chrome, "120"}` is fetched by the key of the
incoming row `{f1, chrome, "121"}`, and the merged row has the incoming key. -/
theorem GetKey_Merge_witness :
    whereHolds (SelectOne (GetKey
        { WebFeatureID := "f1", BrowserName := "chrome", BrowserVersion := "121" }))
      { WebFeatureID := "f1", BrowserName := "chrome", BrowserVersion := "120" } = true ∧
    GetKey (Merge { WebFeatureID := "f1", BrowserName := "chrome", BrowserVersion := "121" }
        { WebFeatureID := "f1", BrowserName := "chrome", BrowserVersion := "120" })
      = GetKey { WebFeatureID := "f1", BrowserName := "chrome", BrowserVersion := "121" } :=
  ⟨by decide,
   (GetKey_Merge { WebFeatureID := "f1", BrowserName := "chrome", BrowserVersion := "121" }
      { WebFeatureID := "f1", BrowserName := "chrome", BrowserVersion := "120" }).2.mpr
      (by decide)⟩

/-- C3: `Merge incoming existing` is the existing row with every field unchanged, so it does
not depend on the incoming row and `Merge` is idempotent; with existing `{f1, chrome, "120"}`
and incoming `{f1, chrome, "121"}` the merged row keeps `BrowserVersion` `"120"`. -/
theorem Merge_keeps_existing :
    (∀ incoming existing : spannerBrowserFeatureAvailability,
      Merge incoming existing = existing ∧
      (Merge incoming existing).WebFeatureID = existing.WebFeatureID ∧
      (Merge incoming existing).BrowserName = existing.BrowserName ∧
      (Merge incoming existing).BrowserVersion = existing.BrowserVersion ∧
      (∀ other, Merge other existing = Merge incoming existing) ∧
      Merge incoming (Merge incoming existing) = Merge incoming existing) ∧
    Merge { WebFeatureID := "f1", BrowserName := "chrome", BrowserVersion := "121" }
        { WebFeatureID := "f1", BrowserName := "chrome", BrowserVersion := "120" }
      = { WebFeatureID := "f1", BrowserName := "chrome", BrowserVersion := "120" } ∧
    (Merge { WebFeatureID := "f1", BrowserName := "chrome", BrowserVersion := "121" }
        { WebFeatureID := "f1", BrowserName := "chrome", BrowserVersion := "120" }).BrowserVersion
      = "120" :=
  ⟨fun _ _ => ⟨rfl, rfl, rfl, rfl, fun _ => rfl, rfl⟩, rfl, rfl⟩

/-- C4: `GetKey` is the inverse of the key-based lookup: a row that satisfies the `WHERE`
clause of `SelectOne k` has `GetKey r = k`, and the parameters bound by
`SelectOne (GetKey r)` are exactly the row's `WebFeatureID` and `BrowserName`. -/
theorem GetKey_inverse_of_SelectOne :
    (∀ (k : browserFeatureAvailabilityKey) (r : spannerBrowserFeatureAvailability),
      whereHolds (SelectOne k) r = true → GetKey r = k) ∧
    (∀ r : spannerBrowserFeatureAvailability,
      (SelectOne (GetKey r)).Params =
        [("webFeatureID", r.WebFeatureID), ("browserName", r.BrowserName)] ∧
      (SelectOne (GetKey r)).param "webFeatureID" = some r.WebFeatureID ∧
      (SelectOne (GetKey r)).param "browserName" = some r.BrowserName) := by
  exact ⟨fun k r h => (whereHolds_SelectOne_iff_GetKey k r).mp h, fun r => ⟨rfl, rfl, rfl⟩⟩

/-- Witness of C4: the row `{f1, chrome, "120"}` satisfies the `WHERE` clause of
`SelectOne {f1, chrome}` and its key is `{f1, chrome}`. -/
theorem GetKey_inverse_of_SelectOne_witness :
    whereHolds (SelectOne { WebFeatureID := "f1", BrowserName := "chrome" })
      { WebFeatureID := "f1", BrowserName := "chrome", BrowserVersion := "120" } = true ∧
    GetKey { WebFeatureID := "f1", BrowserName := "chrome", BrowserVersion := "120" }
      = { WebFeatureID := "f1", BrowserName := "chrome" } :=
  ⟨by decide,
   GetKey_inverse_of_SelectOne.1 { WebFeatureID := "f1", BrowserName := "chrome" }
     { WebFeatureID := "f1", BrowserName := "chrome", BrowserVersion := "120" } (by decide)⟩

/-- C9: for every key, the statement built by `SelectOne` selects from the table named by
`Table` (the fixed name `BrowserFeatureAvailabilities`), constrains `WebFeatureID` and
`BrowserName` by equality to bound parameters, ends with `LIMIT 1`, and binds exactly the two
parameters `webFeatureID = key.WebFeatureID` and `browserName = key.BrowserName`; the SQL text
does not depend on the key. -/
theorem SelectOne_shape (key : browserFeatureAvailabilityKey) :
    Table = "BrowserFeatureAvailabilities" ∧
    (SelectOne key).SQL =
      "\n\tSELECT\n\t\tWebFeatureID, BrowserName, BrowserVersion\n\tFROM " ++ Table ++
      "\n\tWHERE WebFeatureID = @webFeatureID AND BrowserName = @browserName\n\tLIMIT 1" ∧
    ("FROM " ++ Table ++ "\n").data <:+: (SelectOne key).SQL.data ∧
    ("WHERE WebFeatureID = @webFeatureID AND BrowserName = @browserName").data
      <:+: (SelectOne key).SQL.data ∧
    ("LIMIT 1").data <:+ (SelectOne key).SQL.data ∧
    (∀ row, whereHolds (SelectOne key) row = true ↔
      row.WebFeatureID = key.WebFeatureID ∧ row.BrowserName = key.BrowserName) ∧
    (SelectOne key).Params =
      [("webFeatureID", key.WebFeatureID), ("browserName", key.BrowserName)] ∧
    (∀ name, (SelectOne key).param name =
      if name = "webFeatureID" then some key.WebFeatureID
      else if name = "browserName" then some key.BrowserName
      else none) ∧
    (∀ other, (SelectOne other).SQL = (SelectOne key).SQL) := by
  refine ⟨rfl, rfl, ?_, ?_, ?_, whereHolds_SelectOne_iff key, rfl, ?_, fun _ => rfl⟩
  · exact ⟨"\n\tSELECT\n\t\tWebFeatureID, BrowserName, BrowserVersion\n\t".data,
      "\tWHERE WebFeatureID = @webFeatureID AND BrowserName = @browserName\n\tLIMIT 1".data,
      rfl⟩
  · exact ⟨("\n\tSELECT\n\t\tWebFeatureID, BrowserName, BrowserVersion\n\tFROM " ++ Table ++
        "\n\t").data, "\n\tLIMIT 1".data, rfl⟩
  · exact ⟨("\n\tSELECT\n\t\tWebFeatureID, BrowserName, BrowserVersion\n\tFROM " ++ Table ++
        "\n\tWHERE WebFeatureID = @webFeatureID AND BrowserName = @browserName\n\t").data,
      rfl⟩
  · intro name
    by_cases h1 : name = "webFeatureID"
    · subst h1
      rfl
    · by_cases h2 : name = "browserName"
      · subst h2
        rfl
      · have e1 : ("webFeatureID" == name) = false := beq_false_of_ne (Ne.symm h1)
        have e2 : ("browserName" == name) = false := beq_false_of_ne (Ne.symm h2)
        simp only [SelectOne, Statement.param, List.find?, e1, e2, if_neg h1, if_neg h2,
          Option.map_none']

/-! ## Theorems: merging with an absent row, and the insert -/

/-- C10: `InsertBrowserFeatureAvailability` performs the upsert if and only if the feature-ID
lookup succeeds with a non-nil id.  An error of the lookup is returned as it is and nothing is
written; a nil id without error gives `ErrInternalQueryFailure` and nothing is written;
otherwise the row handed to `upsert` has the resolved id as `WebFeatureID` (not the caller's
`webFeatureID`) and the input's `BrowserName` and `BrowserVersion`, and the result of `upsert`
is returned unchanged. -/
theorem InsertBrowserFeatureAvailability_spec (c : Client) (webFeatureID : String)
    (input : BrowserFeatureAvailability) :
    (∀ err, (c.GetIDFromFeatureKey webFeatureID).err = some err →
      InsertBrowserFeatureAvailability c webFeatureID input
        = (some err, [.getIDFromFeatureKey webFeatureID])) ∧
    ((c.GetIDFromFeatureKey webFeatureID).err = none →
      (c.GetIDFromFeatureKey webFeatureID).id = none →
      InsertBrowserFeatureAvailability c webFeatureID input
        = (some ErrInternalQueryFailure, [.getIDFromFeatureKey webFeatureID])) ∧
    (∀ id, (c.GetIDFromFeatureKey webFeatureID).err = none →
      (c.GetIDFromFeatureKey webFeatureID).id = some id →
      InsertBrowserFeatureAvailability c webFeatureID input
        = (c.upsert { WebFeatureID := id, BrowserName := input.BrowserName,
                      BrowserVersion := input.BrowserVersion },
           [.getIDFromFeatureKey webFeatureID,
            .upsert { WebFeatureID := id, BrowserName := input.BrowserName,
                      BrowserVersion := input.BrowserVersion }])) ∧
    (upsertedRows (InsertBrowserFeatureAvailability c webFeatureID input).2 ≠ [] ↔
      (c.GetIDFromFeatureKey webFeatureID).err = none ∧
      (c.GetIDFromFeatureKey webFeatureID).id ≠ none) := by
  cases herr : (c.GetIDFromFeatureKey webFeatureID).err with
  | some e => simp [InsertBrowserFeatureAvailability, herr, upsertedRows]
  | none =>
    cases hid : (c.GetIDFromFeatureKey webFeatureID).id with
    | none => simp [InsertBrowserFeatureAvailability, herr, hid, upsertedRows]
    | some id => simp [InsertBrowserFeatureAvailability, herr, hid, upsertedRows]

/-- Witness of C10: the lookup of `"grid"` resolves to the id `"id-7"` without error, so the
row `{id-7, chrome, "120"}` is handed to `upsert` and its result (nil) is returned. -/
theorem InsertBrowserFeatureAvailability_spec_witness :
    InsertBrowserFeatureAvailability
        { GetIDFromFeatureKey := fun _ => { id := some "id-7", err := none }
          upsert := fun _ => none }
        "grid" { BrowserName := "chrome", BrowserVersion := "120" }
      = (none,
         [.getIDFromFeatureKey "grid",
          .upsert { WebFeatureID := "id-7", BrowserName := "chrome", BrowserVersion := "120" }]) :=
  (InsertBrowserFeatureAvailability_spec
      { GetIDFromFeatureKey := fun _ => { id := some "id-7", err := none }
        upsert := fun _ => none }
      "grid" { BrowserName := "chrome", BrowserVersion := "120" }).2.2.1 "id-7" rfl rfl


/-! ## Theorems: the GetFeature handler -/

/-- On a cache hit the run of `GetFeature` is the return of the cached response, after the
one call to `Lookup`. -/
theorem GetFeature_hit {Feature : Type} (s : Server Feature)
    (request : GetFeatureRequestObject)
    (hfound : (s.getFeatureCacheLookup request).found = true) :
    GetFeature s request =
      { outcome := .returned
          (.GetFeature200JSONResponse (s.getFeatureCacheLookup request).cachedResponse) none
        calls := [.cacheLookup request] } := by
  simp [GetFeature, hfound]

/-- On a cache miss followed by a storer error, the run of `GetFeature` is decided by
`errors.Is(err, ErrQueryReturnedNoResults)`. -/
theorem GetFeature_miss_error {Feature : Type} (s : Server Feature)
    (request : GetFeatureRequestObject) (err : GoError)
    (hmiss : (s.getFeatureCacheLookup request).found = false)
    (herr : (s.wptMetricsStorerGetFeature request.FeatureId
      (s.getWPTMetricViewOrDefault request.Params.WptMetricView) s.defaultBrowsers).err
        = some err) :
    GetFeature s request =
      if errorsIs err ErrQueryReturnedNoResults then
        { outcome := .returned
            (.GetFeature404JSONResponse 404
              ("feature id " ++ request.FeatureId ++ " is not found")) none
          calls := [.cacheLookup request,
            .storerGetFeature request.FeatureId
              (s.getWPTMetricViewOrDefault request.Params.WptMetricView) s.defaultBrowsers] }
      else
        { outcome := .returned (.GetFeature500JSONResponse 500 "unable to get feature") none
          calls := [.cacheLookup request,
            .storerGetFeature request.FeatureId
              (s.getWPTMetricViewOrDefault request.Params.WptMetricView) s.defaultBrowsers,
            .slogError "unable to get feature" err] } := by
  simp [GetFeature, hmiss, herr, StatusNotFound]

/-- On a cache miss followed by a storer result without error, the run of `GetFeature`
dereferences the feature: a nil pointer panics, otherwise the feature is cached and
returned. -/
theorem GetFeature_miss_ok {Feature : Type} (s : Server Feature)
    (request : GetFeatureRequestObject)
    (hmiss : (s.getFeatureCacheLookup request).found = false)
    (herr : (s.wptMetricsStorerGetFeature request.FeatureId
      (s.getWPTMetricViewOrDefault request.Params.WptMetricView) s.defaultBrowsers).err
        = none) :
    GetFeature s request =
      match (s.wptMetricsStorerGetFeature request.FeatureId
        (s.getWPTMetricViewOrDefault request.Params.WptMetricView) s.defaultBrowsers).feature with
      | none =>
        { outcome := .nilDereference
          calls := [.cacheLookup request,
            .storerGetFeature request.FeatureId
              (s.getWPTMetricViewOrDefault request.Params.WptMetricView) s.defaultBrowsers] }
      | some feature =>
        { outcome := .returned (.GetFeature200JSONResponse feature) none
          calls := [.cacheLookup request,
            .storerGetFeature request.FeatureId
              (s.getWPTMetricViewOrDefault request.Params.WptMetricView) s.defaultBrowsers,
            .attemptCache request feature] } := by
  simp only [GetFeature, hmiss, herr, Bool.false_eq_true, if_false]
  cases (s.wptMetricsStorerGetFeature request.FeatureId
    (s.getWPTMetricViewOrDefault request.Params.WptMetricView) s.defaultBrowsers).feature <;> rfl


/-- C5: on a cache miss the response is the 404 response with `Code` 404 and `Message`
`feature id <FeatureId> is not found` if and only if the storer returned an error that is
(wraps) `ErrQueryReturnedNoResults`; every other storer error gives the fixed 500 response
`{500, "unable to get feature"}`, the same for any two such errors on any two requests; and
whenever `GetFeature` returns, the Go error it returns is nil. -/
theorem GetFeature_error_mapping {Feature : Type} (s : Server Feature)
    (request : GetFeatureRequestObject) :
    ((s.getFeatureCacheLookup request).found = false →
      ((GetFeature s request).outcome =
          .returned (.GetFeature404JSONResponse 404
            ("feature id " ++ request.FeatureId ++ " is not found")) none
        ↔ ∃ err, (s.wptMetricsStorerGetFeature request.FeatureId
            (s.getWPTMetricViewOrDefault request.Params.WptMetricView) s.defaultBrowsers).err
              = some err ∧ errorsIs err ErrQueryReturnedNoResults = true) ∧
      ∀ err, (s.wptMetricsStorerGetFeature request.FeatureId
          (s.getWPTMetricViewOrDefault request.Params.WptMetricView) s.defaultBrowsers).err
            = some err →
        errorsIs err ErrQueryReturnedNoResults = false →
          (GetFeature s request).outcome =
            .returned (.GetFeature500JSONResponse 500 "unable to get feature") none ∧
          ∀ (s2 : Server Feature) (request2 : GetFeatureRequestObject) (err2 : GoError),
            (s2.getFeatureCacheLookup request2).found = false →
            (s2.wptMetricsStorerGetFeature request2.FeatureId
              (s2.getWPTMetricViewOrDefault request2.Params.WptMetricView)
              s2.defaultBrowsers).err = some err2 →
            errorsIs err2 ErrQueryReturnedNoResults = false →
            (GetFeature s2 request2).outcome = (GetFeature s request).outcome) ∧
    (∀ returned, (GetFeature s request).outcome.returnedError = some returned →
      returned = none) := by
  constructor
  · intro hmiss
    constructor
    · cases herr : (s.wptMetricsStorerGetFeature request.FeatureId
          (s.getWPTMetricViewOrDefault request.Params.WptMetricView) s.defaultBrowsers).err with
      | some err =>
        rw [GetFeature_miss_error s request err hmiss herr]
        cases hIs : errorsIs err ErrQueryReturnedNoResults <;> simp [hIs]
      | none =>
        rw [GetFeature_miss_ok s request hmiss herr]
        cases (s.wptMetricsStorerGetFeature request.FeatureId
          (s.getWPTMetricViewOrDefault request.Params.WptMetricView)
          s.defaultBrowsers).feature <;> simp
    · intro err herr hIs
      rw [GetFeature_miss_error s request err hmiss herr]
      refine ⟨by simp [hIs], ?_⟩
      intro s2 request2 err2 hmiss2 herr2 hIs2
      rw [GetFeature_miss_error s2 request2 err2 hmiss2 herr2]
      simp [hIs, hIs2]
  · intro returned hret
    cases hfound : (s.getFeatureCacheLookup request).found with
    | true =>
      rw [GetFeature_hit s request hfound] at hret
      simpa [Outcome.returnedError] using hret.symm
    | false =>
      cases herr : (s.wptMetricsStorerGetFeature request.FeatureId
          (s.getWPTMetricViewOrDefault request.Params.WptMetricView) s.defaultBrowsers).err with
      | some err =>
        rw [GetFeature_miss_error s request err hfound herr] at hret
        cases hIs : errorsIs err ErrQueryReturnedNoResults <;>
          simpa [hIs, Outcome.returnedError] using hret.symm
      | none =>
        rw [GetFeature_miss_ok s request hfound herr] at hret
        cases hfeat : (s.wptMetricsStorerGetFeature request.FeatureId
            (s.getWPTMetricViewOrDefault request.Params.WptMetricView)
            s.defaultBrowsers).feature with
        | none => simp [hfeat, Outcome.returnedError] at hret
        | some feature => simpa [hfeat, Outcome.returnedError] using hret.symm

/-- Witness of C5: the cache misses and the storer fails with an error wrapping
`ErrQueryReturnedNoResults`; the response is the 404 response for `feature1` and the Go error
is nil. -/
theorem GetFeature_error_mapping_witness :
    (GetFeature
        (sampleServer { found := false, cachedResponse := "" }
          { feature := none, err := some (.wrap "get feature" ErrQueryReturnedNoResults) })
        sampleRequest).outcome
      = .returned (.GetFeature404JSONResponse 404 "feature id feature1 is not found") none :=
  (((GetFeature_error_mapping
      (sampleServer { found := false, cachedResponse := "" }
        { feature := none, err := some (.wrap "get feature" ErrQueryReturnedNoResults) })
      sampleRequest).1 rfl).1).mpr
    ⟨.wrap "get feature" ErrQueryReturnedNoResults, rfl, by decide⟩

/-- C6: on a cache hit the handler returns exactly the value `Lookup` left in the target, as
a 200 response with a nil error, and makes no call to the storer and no `AttemptCache`
call. -/
theorem GetFeature_cache_hit {Feature : Type} (s : Server Feature)
    (request : GetFeatureRequestObject)
    (hfound : (s.getFeatureCacheLookup request).found = true) :
    (GetFeature s request).outcome =
      .returned (.GetFeature200JSONResponse (s.getFeatureCacheLookup request).cachedResponse)
        none ∧
    (GetFeature s request).calls = [.cacheLookup request] ∧
    storerCalls (GetFeature s request).calls = [] ∧
    attemptCacheCalls (GetFeature s request).calls = [] := by
  rw [GetFeature_hit s request hfound]
  exact ⟨rfl, rfl, rfl, rfl⟩

/-- Witness of C6: the cache holds `"cached"` for the request; it is returned as the 200
response and neither the storer nor `AttemptCache` is called, although the storer would have
answered otherwise. -/
theorem GetFeature_cache_hit_witness :
    (GetFeature
        (sampleServer { found := true, cachedResponse := "cached" }
          { feature := some "stored", err := none })
        sampleRequest).outcome
      = .returned (.GetFeature200JSONResponse "cached") none ∧
    storerCalls (GetFeature
        (sampleServer { found := true, cachedResponse := "cached" }
          { feature := some "stored", err := none })
        sampleRequest).calls = [] :=
  ⟨(GetFeature_cache_hit
      (sampleServer { found := true, cachedResponse := "cached" }
        { feature := some "stored", err := none })
      sampleRequest rfl).1,
   (GetFeature_cache_hit
      (sampleServer { found := true, cachedResponse := "cached" }
        { feature := some "stored", err := none })
      sampleRequest rfl).2.2.1⟩

/-- C7, as stated, fails: the cache misses and the storer returns a nil feature with a nil
error; the storer returned no error, yet no `AttemptCache` call is made, because the
dereference `*feature` panics first. -/
theorem C7_counterexample :
    (sampleServer { found := false, cachedResponse := "" }
        { feature := none, err := none }).getFeatureCacheLookup sampleRequest
      = { found := false, cachedResponse := "" } ∧
    ((sampleServer { found := false, cachedResponse := "" }
        { feature := none, err := none }).wptMetricsStorerGetFeature
          "feature1" "subtest_counts" ["chrome", "firefox"]).err = none ∧
    storerCalls (GetFeature
        (sampleServer { found := false, cachedResponse := "" }
          { feature := none, err := none })
        sampleRequest).calls = [("feature1", "subtest_counts", ["chrome", "firefox"])] ∧
    attemptCacheCalls (GetFeature
        (sampleServer { found := false, cachedResponse := "" }
          { feature := none, err := none })
        sampleRequest).calls = [] ∧
    (GetFeature
        (sampleServer { found := false, cachedResponse := "" }
          { feature := none, err := none })
        sampleRequest).outcome = .nilDereference := by
  decide

/-- C7, amended: on a cache miss the handler calls the storer exactly once, and it calls
`AttemptCache` if and only if the storer returned a non-nil feature with no error; in that
case it is called exactly once, with the request that was used for `Lookup` and the feature
that the handler returns as its 200 response; on any storer error (the 404 and the 500 path
of `GetFeature`) no `AttemptCache` call happens. -/
theorem GetFeature_cache_populated_after_success {Feature : Type} (s : Server Feature)
    (request : GetFeatureRequestObject)
    (hmiss : (s.getFeatureCacheLookup request).found = false) :
    storerCalls (GetFeature s request).calls =
      [(request.FeatureId, s.getWPTMetricViewOrDefault request.Params.WptMetricView,
        s.defaultBrowsers)] ∧
    cacheLookupCalls (GetFeature s request).calls = [request] ∧
    (attemptCacheCalls (GetFeature s request).calls ≠ [] ↔
      (s.wptMetricsStorerGetFeature request.FeatureId
        (s.getWPTMetricViewOrDefault request.Params.WptMetricView) s.defaultBrowsers).err
          = none ∧
      (s.wptMetricsStorerGetFeature request.FeatureId
        (s.getWPTMetricViewOrDefault request.Params.WptMetricView) s.defaultBrowsers).feature
          ≠ none) ∧
    (∀ feature, (s.wptMetricsStorerGetFeature request.FeatureId
        (s.getWPTMetricViewOrDefault request.Params.WptMetricView) s.defaultBrowsers)
          = { feature := some feature, err := none } →
      attemptCacheCalls (GetFeature s request).calls = [(request, feature)] ∧
      (GetFeature s request).outcome = .returned (.GetFeature200JSONResponse feature) none) ∧
    (∀ err, (s.wptMetricsStorerGetFeature request.FeatureId
        (s.getWPTMetricViewOrDefault request.Params.WptMetricView) s.defaultBrowsers).err
          = some err →
      attemptCacheCalls (GetFeature s request).calls = [] ∧
      ((GetFeature s request).outcome =
          .returned (.GetFeature404JSONResponse 404
            ("feature id " ++ request.FeatureId ++ " is not found")) none ∨
        (GetFeature s request).outcome =
          .returned (.GetFeature500JSONResponse 500 "unable to get feature") none)) := by
  cases herr : (s.wptMetricsStorerGetFeature request.FeatureId
      (s.getWPTMetricViewOrDefault request.Params.WptMetricView) s.defaultBrowsers).err with
  | some err =>
    rw [GetFeature_miss_error s request err hmiss herr]
    have hres : ∀ feature, (s.wptMetricsStorerGetFeature request.FeatureId
        (s.getWPTMetricViewOrDefault request.Params.WptMetricView) s.defaultBrowsers)
          ≠ { feature := some feature, err := none } := by
      intro feature h
      rw [h] at herr
      cases herr
    cases hIs : errorsIs err ErrQueryReturnedNoResults <;>
      simp [storerCalls, cacheLookupCalls, attemptCacheCalls, hres]
  | none =>
    rw [GetFeature_miss_ok s request hmiss herr]
    cases hfeat : (s.wptMetricsStorerGetFeature request.FeatureId
        (s.getWPTMetricViewOrDefault request.Params.WptMetricView) s.defaultBrowsers).feature with
    | none =>
      have hres : ∀ feature, (s.wptMetricsStorerGetFeature request.FeatureId
          (s.getWPTMetricViewOrDefault request.Params.WptMetricView) s.defaultBrowsers)
            ≠ { feature := some feature, err := none } := by
        intro feature h
        rw [h] at hfeat
        cases hfeat
      simp [storerCalls, cacheLookupCalls, attemptCacheCalls, hres]
    | some feature =>
      refine ⟨by simp [storerCalls], by simp [cacheLookupCalls],
        by simp [attemptCacheCalls], ?_, by simp⟩
      intro feature2 h
      rw [h] at hfeat
      cases hfeat
      simp [attemptCacheCalls]

/-- Witness of C7 amended: the cache misses and the storer returns the feature `"stored"`; the
storer is called once and `AttemptCache` once, with the request and `"stored"`. -/
theorem GetFeature_cache_populated_after_success_witness :
    storerCalls (GetFeature
        (sampleServer { found := false, cachedResponse := "" }
          { feature := some "stored", err := none })
        sampleRequest).calls = [("feature1", "subtest_counts", ["chrome", "firefox"])] ∧
    attemptCacheCalls (GetFeature
        (sampleServer { found := false, cachedResponse := "" }
          { feature := some "stored", err := none })
        sampleRequest).calls = [(sampleRequest, "stored")] :=
  ⟨(GetFeature_cache_populated_after_success
      (sampleServer { found := false, cachedResponse := "" }
        { feature := some "stored", err := none })
      sampleRequest rfl).1,
   ((GetFeature_cache_populated_after_success
      (sampleServer { found := false, cachedResponse := "" }
        { feature := some "stored", err := none })
      sampleRequest rfl).2.2.2.1 "stored" rfl).1⟩

/-! ## Theorems: response cache keying -/

/-- Two characters with the same code point are equal. -/
theorem Char_eq_of_toNat_eq {c d : Char} (h : c.toNat = d.toNat) : c = d := by
  rw [← Char.ofNat_toNat c, ← Char.ofNat_toNat d, h]

/-- The code point of a hexadecimal digit. -/
theorem hexDigit_toNat (n : Nat) (h : n < 16) :
    (hexDigit n).toNat = if n < 10 then 48 + n else 87 + n := by
  interval_cases n <;> rfl

/-- Distinct values below 16 have distinct hexadecimal digits. -/
theorem hexDigit_inj {a b : Nat} (ha : a < 16) (hb : b < 16) (h : hexDigit a = hexDigit b) :
    a = b := by
  have h2 := congrArg Char.toNat h
  rw [hexDigit_toNat a ha, hexDigit_toNat b hb] at h2
  split_ifs at h2 <;> omega

/-- A character written as `\uXXXX` fits in four hexadecimal digits. -/
theorem needsUnicodeEscape_lt {c : Char} (h : needsUnicodeEscape c = true) :
    c.toNat < 65536 := by
  simp only [needsUnicodeEscape, Bool.or_eq_true, decide_eq_true_eq, beq_iff_eq] at h
  omega

/-- A value below 65536 is determined by its four hexadecimal digits. -/
theorem toNat_eq_of_hex {m n : Nat} (hm : m < 65536) (hn : n < 65536)
    (e3 : m / 4096 % 16 = n / 4096 % 16) (e2 : m / 256 % 16 = n / 256 % 16)
    (e1 : m / 16 % 16 = n / 16 % 16) (e0 : m % 16 = n % 16) : m = n := by
  omega

/-- The escapes form a prefix code: the escaped form of a character, followed by anything,
determines the character and what follows. -/
theorem jsonEscape_unique {c d : Char} {u v : List Char}
    (h : jsonEscape c ++ u = jsonEscape d ++ v) : c = d ∧ u = v := by
  have hbs : ∀ x : Char, Char.ofNat 92 = x → x.toNat = 92 := by
    intro x hx
    subst hx
    rfl
  unfold jsonEscape at h
  split_ifs at h <;>
    simp only [List.cons_append, List.nil_append, List.cons.injEq] at h
  all_goals first
    | (exact absurd h.2.1 (by decide))
    | (exact absurd (hbs _ h.1) (by assumption))
    | (exact absurd (hbs _ h.1.symm) (by assumption))
    | (exact ⟨Char_eq_of_toNat_eq (by omega), h.2.2⟩)
    | (exact ⟨h.1, h.2⟩)
    | (obtain ⟨-, -, h3, h2, h1, h0, huv⟩ := h
       have hc := needsUnicodeEscape_lt ‹needsUnicodeEscape c = true›
       have hd := needsUnicodeEscape_lt ‹needsUnicodeEscape d = true›
       have e3 := hexDigit_inj (Nat.mod_lt _ (by decide)) (Nat.mod_lt _ (by decide)) h3
       have e2 := hexDigit_inj (Nat.mod_lt _ (by decide)) (Nat.mod_lt _ (by decide)) h2
       have e1 := hexDigit_inj (Nat.mod_lt _ (by decide)) (Nat.mod_lt _ (by decide)) h1
       have e0 := hexDigit_inj (Nat.mod_lt _ (by decide)) (Nat.mod_lt _ (by decide)) h0
       exact ⟨Char_eq_of_toNat_eq (toNat_eq_of_hex hc hd e3 e2 e1 e0), huv⟩)

/-- No escaped form starts with a quote. -/
theorem jsonEscape_head (c : Char) :
    ∃ head rest, jsonEscape c = head :: rest ∧ head ≠ Char.ofNat 34 := by
  unfold jsonEscape
  split_ifs with h1
  all_goals first
    | exact ⟨_, _, rfl, by decide⟩
    | (refine ⟨c, [], rfl, ?_⟩
       intro hc
       apply h1
       rw [hc]
       rfl)

/-- Escaped characters followed by the closing quote determine the characters and what follows
the quote. -/
theorem jsonEscapeAll_closing {a b x y : List Char}
    (h : jsonEscapeAll a ++ Char.ofNat 34 :: x = jsonEscapeAll b ++ Char.ofNat 34 :: y) :
    a = b ∧ x = y := by
  induction a generalizing b with
  | nil =>
    cases b with
    | nil => exact ⟨rfl, by simpa [jsonEscapeAll] using h⟩
    | cons d b =>
      obtain ⟨head, rest, hd, hne⟩ := jsonEscape_head d
      simp only [jsonEscapeAll, hd, List.nil_append, List.cons_append, List.cons.injEq] at h
      exact absurd h.1.symm hne
  | cons c a ih =>
    cases b with
    | nil =>
      obtain ⟨head, rest, hc, hne⟩ := jsonEscape_head c
      simp only [jsonEscapeAll, hc, List.nil_append, List.cons_append, List.cons.injEq] at h
      exact absurd h.1 hne
    | cons d b =>
      simp only [jsonEscapeAll, List.append_assoc] at h
      obtain ⟨hcd, hrest⟩ := jsonEscape_unique h
      obtain ⟨hab, hxy⟩ := ih hrest
      exact ⟨by rw [hcd, hab], hxy⟩

/-- A JSON string literal followed by anything determines the string and what follows. -/
theorem jsonString_unique {s t : String} {x y : List Char}
    (h : (jsonString s).data ++ x = (jsonString t).data ++ y) : s = t ∧ x = y := by
  simp only [jsonString, List.cons_append, List.append_assoc, List.nil_append,
    List.cons.injEq, true_and] at h
  obtain ⟨hst, hxy⟩ := jsonEscapeAll_closing h
  exact ⟨String.ext hst, hxy⟩


/-- The code point of a decimal digit. -/
theorem digitChar_toNat (n : Nat) : (digitChar n).toNat = 48 + n % 10 := by
  unfold digitChar
  have hlt : n % 10 < 10 := Nat.mod_lt _ (by decide)
  generalize n % 10 = k at hlt
  interval_cases k <;> rfl

/-- Equal decimal digit characters come from equal digits. -/
theorem digitChar_inj {a b : Nat} (h : digitChar a = digitChar b) : a % 10 = b % 10 := by
  have h2 := congrArg Char.toNat h
  rw [digitChar_toNat, digitChar_toNat] at h2
  omega

/-- The ten characters of the text of a valid date. -/
theorem Date.format_data (d : Date) (hd : d.IsValid) :
    d.format.data =
      [digitChar (d.year / 10 / 10 / 10), digitChar (d.year / 10 / 10), digitChar (d.year / 10),
        digitChar d.year, Char.ofNat 45, digitChar (d.month / 10), digitChar d.month,
        Char.ofNat 45, digitChar (d.day / 10), digitChar d.day] := by
  obtain ⟨hy, -, hm, -, hdd⟩ := hd
  have h1 : d.year < 10 ^ 4 := by omega
  have h2 : d.month < 10 ^ 2 := by omega
  have h3 : d.day < 10 ^ 2 := by omega
  simp only [Date.format, zeroPad, if_pos h1, if_pos h2, if_pos h3, String.data_append,
    decimalDigits, List.nil_append, List.cons_append, List.append_assoc]

/-- Distinct valid dates have distinct texts. -/
theorem Date.format_inj {d e : Date} (hd : d.IsValid) (he : e.IsValid)
    (h : d.format = e.format) : d = e := by
  have hdata := congrArg String.data h
  rw [Date.format_data d hd, Date.format_data e he] at hdata
  simp only [List.cons.injEq, and_true, true_and] at hdata
  obtain ⟨y3, y2, y1, y0, m1, m0, d1, d0⟩ := hdata
  have := digitChar_inj y3
  have := digitChar_inj y2
  have := digitChar_inj y1
  have := digitChar_inj y0
  have := digitChar_inj m1
  have := digitChar_inj m0
  have := digitChar_inj d1
  have := digitChar_inj d0
  obtain ⟨hy, -, hm, -, hdd⟩ := hd
  obtain ⟨hy2, -, hm2, -, hdd2⟩ := he
  cases d
  cases e
  simp only [Date.mk.injEq]
  simp only at *
  omega

/-- An optional member followed by the closing brace determines the parameter and what follows
the brace. -/
theorem optionalMember_closing {name : String} {a b : Option String} {x y : List Char}
    (h : (optionalMember name a).data ++ Char.ofNat 125 :: x
      = (optionalMember name b).data ++ Char.ofNat 125 :: y) : a = b ∧ x = y := by
  cases a with
  | none =>
    cases b with
    | none => exact ⟨rfl, by simpa [optionalMember] using h⟩
    | some t =>
      simp only [optionalMember, String.data_append, List.append_assoc] at h
      exact absurd (List.head_eq_of_cons_eq h) (by decide)
  | some s =>
    cases b with
    | none =>
      simp only [optionalMember, String.data_append, List.append_assoc] at h
      exact absurd (List.head_eq_of_cons_eq h) (by decide)
    | some t =>
      simp only [optionalMember, String.data_append, List.append_assoc] at h
      have h2 := jsonString_unique (List.append_cancel_left (List.append_cancel_left
        (List.append_cancel_left h)))
      exact ⟨by rw [h2.1], List.tail_eq_of_cons_eq h2.2⟩


/-- Requests with valid dates that serialize to the same JSON text are equal. -/
theorem toJSON_inj {r1 r2 : ListChromeDailyUsageStatsRequestObject}
    (h1 : r1.Params.StartAt.IsValid ∧ r1.Params.EndAt.IsValid)
    (h2 : r2.Params.StartAt.IsValid ∧ r2.Params.EndAt.IsValid)
    (h : r1.toJSON = r2.toJSON) : r1 = r2 := by
  have hdata := congrArg String.data h
  simp only [ListChromeDailyUsageStatsRequestObject.toJSON,
    ListChromeDailyUsageStatsParams.toJSON, String.data_append, List.append_assoc] at hdata
  have e1 := jsonString_unique (List.append_cancel_left hdata)
  have e2 := jsonString_unique (List.append_cancel_left (List.append_cancel_left e1.2))
  have e3 := jsonString_unique (List.append_cancel_left e2.2)
  have e4 := optionalMember_closing e3.2
  obtain ⟨fid1, ⟨s1, t1, p1⟩⟩ := r1
  obtain ⟨fid2, ⟨s2, t2, p2⟩⟩ := r2
  simp only at e1 e2 e3 e4 h1 h2
  rw [e1.1, Date.format_inj h1.1 h2.1 e2.1, Date.format_inj h1.2 h2.2 e3.1, e4.1]

/-- For one operation, equal cache keys come from equal serialized requests. -/
theorem cacheKey_inj {operation a b : String}
    (h : cacheKey operation a = cacheKey operation b) : a = b := by
  have hdata := congrArg String.data h
  simp only [cacheKey, String.data_append, List.append_assoc] at hdata
  exact String.ext (List.append_cancel_left (List.append_cancel_left hdata))

/-- C8: the cache key is the operation name, a hyphen and the canonical JSON serialization of
the request, whatever the backend and the value codec are: `Lookup` gets and `AttemptCache`
puts under this same key for the same request.  The serialization of a
`listChromeDailyUsageStats` request holds the feature id, the two dates and the page token
when there is one, an absent page token being omitted; for one operation and requests with
valid dates, two keys are equal exactly when the requests are.  For `feature_id` `feature1`,
`startAt` 2000-01-01, `endAt` 2000-01-10 and no other parameter the key is the one the test
expects; a present, empty page token is serialized.  In `GetFeature` the request handed to
`AttemptCache` is the one handed to `Lookup`. -/
theorem cacheKey_deterministic :
    (∀ (Request Value : Type) (c : OperationResponseCache Request Value) (request : Request),
      (c.Lookup request).2 = [.get (c.operation ++ "-" ++ c.requestJSON request)] ∧
      ∀ value payload, c.encode value = some payload →
        c.AttemptCache request value
          = [.put (c.operation ++ "-" ++ c.requestJSON request) payload]) ∧
    (∀ (operation featureID : String) (startAt endAt : Date),
      cacheKey operation
          ({ FeatureId := featureID
             Params := { StartAt := startAt, EndAt := endAt, PageToken := none } } :
            ListChromeDailyUsageStatsRequestObject).toJSON =
        operation ++ "-" ++ "\x7b\"feature_id\":" ++ jsonString featureID ++
          ",\"Params\":\x7b\"startAt\":" ++ jsonString startAt.format ++
          ",\"endAt\":" ++ jsonString endAt.format ++ "\x7d\x7d" ∧
      ∀ token : String,
        cacheKey operation
            ({ FeatureId := featureID
               Params := { StartAt := startAt, EndAt := endAt, PageToken := some token } } :
              ListChromeDailyUsageStatsRequestObject).toJSON =
          operation ++ "-" ++ "\x7b\"feature_id\":" ++ jsonString featureID ++
            ",\"Params\":\x7b\"startAt\":" ++ jsonString startAt.format ++
            ",\"endAt\":" ++ jsonString endAt.format ++
            ",\"page_token\":" ++ jsonString token ++ "\x7d\x7d") ∧
    (∀ (operation : String) (r1 r2 : ListChromeDailyUsageStatsRequestObject),
      r1.Params.StartAt.IsValid ∧ r1.Params.EndAt.IsValid →
      r2.Params.StartAt.IsValid ∧ r2.Params.EndAt.IsValid →
      (cacheKey operation r1.toJSON = cacheKey operation r2.toJSON ↔ r1 = r2)) ∧
    cacheKey "listChromeDailyUsageStats" sampleUsageRequest.toJSON =
      "listChromeDailyUsageStats-\x7b\"feature_id\":\"feature1\",\"Params\":\x7b\"startAt\":\"2000-01-01\",\"endAt\":\"2000-01-10\"\x7d\x7d" ∧
    cacheKey "listChromeDailyUsageStats"
        ({ sampleUsageRequest with
            Params := { sampleUsageRequest.Params with PageToken := some "" } } :
          ListChromeDailyUsageStatsRequestObject).toJSON =
      "listChromeDailyUsageStats-\x7b\"feature_id\":\"feature1\",\"Params\":\x7b\"startAt\":\"2000-01-01\",\"endAt\":\"2000-01-10\",\"page_token\":\"\"\x7d\x7d" ∧
    (∀ (Feature : Type) (s : Server Feature) (request : GetFeatureRequestObject),
      cacheLookupCalls (GetFeature s request).calls = [request] ∧
      ∀ cached, cached ∈ attemptCacheCalls (GetFeature s request).calls →
        cached.1 = request) := by
  refine ⟨fun Request Value c request => ⟨?_, ?_⟩, fun operation featureID startAt endAt => ⟨?_, fun token => ?_⟩,
    fun operation r1 r2 h1 h2 => ⟨fun h => toJSON_inj h1 h2 (cacheKey_inj h), fun h => by rw [h]⟩,
    rfl, rfl, fun Feature s request => ?_⟩
  · cases hget : c.backendGet (cacheKey c.operation (c.requestJSON request)) <;>
      simp only [OperationResponseCache.Lookup, hget] <;> rfl
  · intro value payload hpayload
    simp [OperationResponseCache.AttemptCache, hpayload, cacheKey]
  · apply String.ext
    simp only [cacheKey, ListChromeDailyUsageStatsRequestObject.toJSON,
      ListChromeDailyUsageStatsParams.toJSON, optionalMember, String.data_append,
      List.append_assoc]
    rfl
  · apply String.ext
    simp only [cacheKey, ListChromeDailyUsageStatsRequestObject.toJSON,
      ListChromeDailyUsageStatsParams.toJSON, optionalMember, String.data_append,
      List.append_assoc]
    rfl
  · cases hfound : (s.getFeatureCacheLookup request).found with
    | true =>
      rw [GetFeature_hit s request hfound]
      simp [cacheLookupCalls, attemptCacheCalls]
    | false =>
      cases herr : (s.wptMetricsStorerGetFeature request.FeatureId
          (s.getWPTMetricViewOrDefault request.Params.WptMetricView) s.defaultBrowsers).err with
      | some err =>
        rw [GetFeature_miss_error s request err hfound herr]
        cases errorsIs err ErrQueryReturnedNoResults <;>
          simp [cacheLookupCalls, attemptCacheCalls]
      | none =>
        rw [GetFeature_miss_ok s request hfound herr]
        cases (s.wptMetricsStorerGetFeature request.FeatureId
            (s.getWPTMetricViewOrDefault request.Params.WptMetricView)
            s.defaultBrowsers).feature <;>
          simp [cacheLookupCalls, attemptCacheCalls]

/-- Witness of C8: caching the payload `"stats"` for the request of the test puts it under the
key made of the operation and the serialized request; the request of the test and the same
request with an empty page token have valid dates and different keys. -/
theorem cacheKey_deterministic_witness :
    sampleUsageCache.AttemptCache sampleUsageRequest "stats" =
      [.put (sampleUsageCache.operation ++ "-" ++
        sampleUsageCache.requestJSON sampleUsageRequest) "stats"] ∧
    cacheKey "listChromeDailyUsageStats" sampleUsageRequest.toJSON ≠
      cacheKey "listChromeDailyUsageStats"
        ({ sampleUsageRequest with
            Params := { sampleUsageRequest.Params with PageToken := some "" } } :
          ListChromeDailyUsageStatsRequestObject).toJSON :=
  ⟨(cacheKey_deterministic.1 _ _ sampleUsageCache sampleUsageRequest).2 "stats" "stats" rfl,
   fun h => absurd
    ((cacheKey_deterministic.2.2.1 "listChromeDailyUsageStats" sampleUsageRequest
      { sampleUsageRequest with
          Params := { sampleUsageRequest.Params with PageToken := some "" } }
      (by decide) (by decide)).mp h)
    (by decide)⟩

end Webstatus
